import Mathlib

/-!
Verification of the Account REST service (routes layer).

The request handlers are shallowly embedded from src/service/routes.py.
The Account entity and the persistence gateway live in service/models.py,
which is not part of the sources here; they are modelled from the spec
(sections 3, 4.1 and 4.2): typed fields, strict deserialization of the
required fields, optional phone number, date defaulting, and an
association-list store with server-assigned ids.

Dates are modelled as strings (their JSON wire form).  A request body is
`Option AccountPayload`: `none` stands for a body that does not parse to a
JSON mapping at all; a present payload has an `Option` per key so that
missing keys are representable.  HTTP responses are status, body and the
Location header; the stripping of bodies on 1xx/204/304
responses by the WSGI layer is modelled separately by `wireBody`.
-/

set_option autoImplicit false

namespace AccountService

/-- Modelled from the spec: the JSON mapping a client sends as a request
body (service/models.py is not under src/).  Every key is optional so a
payload with missing keys is representable; a body that is not a mapping
at all is `none` at the `HttpRequest` level. -/
structure AccountPayload where
  id : Option Int
  name : Option String
  email : Option String
  address : Option String
  phone_number : Option String
  date_joined : Option String
deriving Repr, DecidableEq

/-- Modelled from the spec: a stored Account row (spec section 3):
server-assigned integer id, required name/email/address, optional
phone number, date_joined defaulting to the creation date. -/
structure Account where
  id : Nat
  name : String
  email : String
  address : String
  phone_number : Option String
  date_joined : String
deriving Repr, DecidableEq

/-- The serialized (JSON) form of an Account, as returned by
`Account.serialize`. -/
structure AccountJson where
  id : Nat
  name : String
  email : String
  address : String
  phone_number : Option String
  date_joined : String
deriving Repr, DecidableEq

/-- The five mutable fields produced by a successful deserialization
(the entity before the gateway assigns an id). -/
structure AccountData where
  name : String
  email : String
  address : String
  phone_number : Option String
  date_joined : String
deriving Repr, DecidableEq

/-- Modelled from the spec: `Account.deserialize` (service/models.py is
not under src/).  Spec section 4.1: fails when a required key (name,
email, address) is missing; phone_number is optional; date_joined
defaults to the creation date `today` when absent.  `none` is the
ValidationError outcome. -/
def deserialize (p : AccountPayload) (today : String) : Option AccountData :=
  match p.name, p.email, p.address with
  | some n, some e, some a =>
      some { name := n, email := e, address := a,
             phone_number := p.phone_number,
             date_joined := p.date_joined.getD today }
  | _, _, _ => none

/-- Modelled from the spec: `Account.serialize` (spec section 4.1):
a mapping of the fields, always succeeding for a full Account. -/
def Account.serialize (a : Account) : AccountJson :=
  { id := a.id, name := a.name, email := a.email, address := a.address,
    phone_number := a.phone_number, date_joined := a.date_joined }

/-- Modelled from the spec: the single logical
table of the persistence gateway (spec section 4.2), one row per Account keyed by `id`, with the
counter the store uses to assign fresh unique ids. -/
structure Store where
  nextId : Nat
  rows : List Account
deriving Repr, DecidableEq

/-- Modelled from the spec: `Account.find` (spec section 4.2): the
Account with that id, or an explicit not-found result. -/
def Store.find (s : Store) (i : Nat) : Option Account :=
  s.rows.find? (fun r => r.id = i)

/-- The Account row built from deserialized data and a store-assigned id. -/
def mkAccount (nid : Nat) (d : AccountData) : Account :=
  { id := nid, name := d.name, email := d.email, address := d.address,
    phone_number := d.phone_number, date_joined := d.date_joined }

/-- Modelled from the spec: `Account.create` (spec section 4.2): inserts
a new row and assigns a fresh unique id. -/
def Store.createRow (s : Store) (d : AccountData) : Account × Store :=
  (mkAccount s.nextId d,
   { nextId := s.nextId + 1, rows := s.rows ++ [mkAccount s.nextId d] })

/-- Modelled from the spec: `Account.update` (spec section 4.2): persists
the in-memory state of an already-loaded Account back to its row, keyed
by id. -/
def Store.updateRow (s : Store) (a : Account) : Store :=
  { s with rows := s.rows.map (fun r => if r.id = a.id then a else r) }

/-- Modelled from the spec: `Account.delete` (spec section 4.2): removes
the row keyed by id; no-op if already absent. -/
def Store.deleteRow (s : Store) (i : Nat) : Store :=
  { s with rows := s.rows.filter (fun r => r.id ≠ i) }

/-- The ids of every stored row are below the id counter of the store; this is
what makes the assigned ids unique. -/
def Store.WellFormed (s : Store) : Prop :=
  ∀ r ∈ s.rows, r.id < s.nextId

instance (s : Store) : Decidable s.WellFormed := by
  unfold Store.WellFormed; infer_instance

/-- An inbound HTTP request, as the handlers see it: the Content-Type
header (absent allowed) and the parsed JSON body (`none` when the body
could not be parsed to a mapping). -/
structure HttpRequest where
  contentType : Option String
  body : Option AccountPayload
deriving Repr, DecidableEq

/-- A response body: empty, a JSON object, a JSON array, or the JSON
error document that `abort` produces. -/
inductive RespBody where
  | empty : RespBody
  | json : AccountJson → RespBody
  | jsonList : List AccountJson → RespBody
  | error : String → RespBody
deriving Repr, DecidableEq

/-- An HTTP response: status code, body as the handler built it, and the
Location header when the handler sets one. -/
structure HttpResponse where
  status : Nat
  body : RespBody
  location : Option String
deriving Repr, DecidableEq

/-- The WSGI layer (the external HTTP runtime, spec section 1) emits no
message body for HEAD, 1xx, 204 and 304 responses, whatever body the
handler passed; the observable body of a response. -/
def wireBody (r : HttpResponse) : RespBody :=
  if r.status = 204 ∨ r.status = 304 ∨ (100 ≤ r.status ∧ r.status < 200) then
    RespBody.empty
  else r.body

/-- From src/service/routes.py, check_content_type: the check passes only
when the header is present, non-empty (Python truthiness of the string)
and equal to the expected media type. -/
def check_content_type (media_type : String) (req : HttpRequest) : Bool :=
  match req.contentType with
  | some ct => ct ≠ "" && ct = media_type
  | none => false

/-- From src/service/routes.py, create_accounts: content-type check
first, then parse (400 on DataError), deserialize (400 on
ValidationError), create, 201 with the serialized Account and the
Location header the code sets, which is the literal "/". -/
def create_accounts (req : HttpRequest) (today : String) (s : Store) :
    HttpResponse × Store :=
  if check_content_type "application/json" req = false then
    ({ status := 415, body := RespBody.error "Content-Type must be application/json",
       location := none }, s)
  else
    match req.body with
    | none =>
        ({ status := 400, body := RespBody.error "bad request", location := none }, s)
    | some p =>
        match deserialize p today with
        | none =>
            ({ status := 400, body := RespBody.error "bad request", location := none }, s)
        | some d =>
            let (a, s1) := s.createRow d
            ({ status := 201, body := RespBody.json a.serialize,
               location := some "/" }, s1)

/-- From src/service/routes.py, list_accounts: serialize every stored
Account and return the array with 200. -/
def list_accounts (s : Store) : HttpResponse :=
  { status := 200, body := RespBody.jsonList (s.rows.map Account.serialize),
    location := none }

/-- From src/service/routes.py, read_account: find by id, 404 when
absent, otherwise 200 with the serialized Account. -/
def read_account (i : Nat) (s : Store) : HttpResponse :=
  match s.find i with
  | none =>
      { status := 404, body := RespBody.error "not found", location := none }
  | some a =>
      { status := 200, body := RespBody.json a.serialize, location := none }

/-- From src/service/routes.py, update_account: content-type check, find
(404 when absent), deserialize the body into a fresh Account (400 on
failure), copy the five mutable fields onto the found row, persist, 200
with the serialized row and the literal "/" Location. -/
def update_account (i : Nat) (req : HttpRequest) (today : String) (s : Store) :
    HttpResponse × Store :=
  if check_content_type "application/json" req = false then
    ({ status := 415, body := RespBody.error "Content-Type must be application/json",
       location := none }, s)
  else
    match s.find i with
    | none =>
        ({ status := 404, body := RespBody.error "not found", location := none }, s)
    | some a0 =>
        match req.body with
        | none =>
            ({ status := 400, body := RespBody.error "bad request", location := none }, s)
        | some p =>
            match deserialize p today with
            | none =>
                ({ status := 400, body := RespBody.error "bad request", location := none }, s)
            | some d =>
                let a1 : Account :=
                  { a0 with name := d.name, email := d.email, address := d.address,
                            phone_number := d.phone_number, date_joined := d.date_joined }
                ({ status := 200, body := RespBody.json a1.serialize,
                   location := some "/" }, s.updateRow a1)

/-- From src/service/routes.py, delete_account: find (404 when absent),
serialize the row, delete it, return 204; the handler passes the
serialized row as the body (the WSGI layer discards it for 204). -/
def delete_account (i : Nat) (s : Store) : HttpResponse × Store :=
  match s.find i with
  | none =>
      ({ status := 404, body := RespBody.error "not found", location := none }, s)
  | some a0 =>
      ({ status := 204, body := RespBody.json a0.serialize, location := none },
       s.deleteRow i)

/-- The store with no rows and the id counter at its start. -/
def emptyStore : Store := { nextId := 1, rows := [] }

/-- A single client request, as replayed against a store: one of the
three mutating endpoints with its inputs. -/
inductive Op where
  | createReq : HttpRequest → String → Op
  | updateReq : Nat → HttpRequest → String → Op
  | deleteReq : Nat → Op
deriving Repr, DecidableEq

/-- Whether the operation is a create (POST /accounts). -/
def Op.isCreate : Op → Bool
  | Op.createReq _ _ => true
  | _ => false

/-- The store after serving one mutating request. -/
def applyOp (s : Store) : Op → Store
  | Op.createReq req today => (create_accounts req today s).2
  | Op.updateReq i req today => (update_account i req today s).2
  | Op.deleteReq i => (delete_account i s).2

/-- The rows the creates starting at id `nid` add to a store: one row per
payload that deserializes, skipping payloads that fail validation. -/
def mkRows (today : String) (nid : Nat) : List AccountPayload → List Account
  | [] => []
  | p :: ps =>
    match deserialize p today with
    | some d => mkAccount nid d :: mkRows today (nid + 1) ps
    | none => mkRows today nid ps

/-- The store after serving one well-formed POST /accounts per payload,
in order. -/
def createAll (today : String) (ps : List AccountPayload) (s : Store) : Store :=
  ps.foldl
    (fun t p =>
      (create_accounts { contentType := some "application/json", body := some p }
        today t).2)
    s

/-! ### Concrete sample data for witnesses -/

/-- A fully populated valid request payload. -/
def samplePayload : AccountPayload :=
  { id := none, name := some "John", email := some "john@example.com",
    address := some "1 Main St", phone_number := some "555-1234",
    date_joined := some "2020-01-01" }

/-- A payload missing the required email and address keys. -/
def badPayload : AccountPayload :=
  { id := none, name := some "not enough data", email := none,
    address := none, phone_number := none, date_joined := none }

/-- A well-formed JSON request carrying the sample payload. -/
def jsonReq : HttpRequest :=
  { contentType := some "application/json", body := some samplePayload }

/-- A request with an HTML content type but a valid JSON body. -/
def htmlReq : HttpRequest :=
  { contentType := some "text/html", body := some samplePayload }

/-- A request carrying no Content-Type header at all. -/
def noCtReq : HttpRequest :=
  { contentType := none, body := some samplePayload }

/-- A JSON request whose body fails validation. -/
def badReq : HttpRequest :=
  { contentType := some "application/json", body := some badPayload }

/-- The account the sample payload creates on the empty store. -/
def sampleAccount : Account :=
  { id := 1, name := "John", email := "john@example.com",
    address := "1 Main St", phone_number := some "555-1234",
    date_joined := "2020-01-01" }

/-- A store holding just the sample account. -/
def sampleStore : Store := { nextId := 2, rows := [sampleAccount] }

/-- A second valid payload, carrying an id value of its own. -/
def otherPayload : AccountPayload :=
  { id := some 99, name := some "Jane", email := some "jane@example.com",
    address := some "2 Oak Ave", phone_number := none,
    date_joined := some "2021-05-05" }

/-- The deserialized form of the second payload. -/
def otherData : AccountData :=
  { name := "Jane", email := "jane@example.com", address := "2 Oak Ave",
    phone_number := none, date_joined := "2021-05-05" }

/-- A JSON request whose body carries the stray id 99. -/
def badIdReq : HttpRequest :=
  { contentType := some "application/json", body := some otherPayload }

/-! ### Helper lemmas -/

/-- A mismatched Content-Type header fails check_content_type. -/
theorem check_ct_false_of_ne (req : HttpRequest)
    (h : req.contentType ≠ some "application/json") :
    check_content_type "application/json" req = false := by
  unfold check_content_type
  cases hc : req.contentType with
  | none => rfl
  | some ct =>
      have : ct ≠ "application/json" := by
        intro he; exact h (by rw [hc, he])
      simp [this]

/-- A request whose Content-Type header is exactly application/json
passes check_content_type. -/
theorem check_ct_true (req : HttpRequest)
    (h : req.contentType = some "application/json") :
    check_content_type "application/json" req = true := by
  unfold check_content_type
  rw [h]
  decide

/-- Looking up a fresh id after appending its row finds that row. -/
theorem find_id_append (l : List Account) (a : Account)
    (hl : ∀ r ∈ l, r.id ≠ a.id) :
    List.find? (fun r => r.id = a.id) (l ++ [a]) = some a := by
  induction l with
  | nil => simp [List.find?]
  | cons r t ih =>
      have hr : r.id ≠ a.id := hl r (List.mem_cons_self r t)
      rw [List.cons_append, List.find?_cons, decide_eq_false hr]
      exact ih (fun x hx => hl x (List.mem_cons_of_mem _ hx))

/-- The row a find returns carries the id that was looked up. -/
theorem find_id_of_mem (s : Store) (i : Nat) (a : Account)
    (h : s.find i = some a) : a.id = i := by
  have := List.find?_some h
  simpa using this

/-- The row a find returns is one of the stored rows. -/
theorem mem_of_find (s : Store) (i : Nat) (a : Account)
    (h : s.find i = some a) : a ∈ s.rows :=
  List.mem_of_find?_eq_some h

/-- Reading an id the store holds returns 200 with the serialized row. -/
theorem read_account_found (i : Nat) (s : Store) (a : Account)
    (h : s.find i = some a) :
    read_account i s =
      { status := 200, body := RespBody.json a.serialize, location := none } := by
  simp [read_account, h]

/-- Replacing the row that carries the looked-up id makes a subsequent
lookup return the replacement. -/
theorem find_map_update (l : List Account) (i : Nat) (a0 a1 : Account)
    (h : List.find? (fun r => r.id = i) l = some a0) (h1 : a1.id = i) :
    List.find? (fun r => r.id = i)
      (l.map (fun r => if r.id = a1.id then a1 else r)) = some a1 := by
  induction l with
  | nil => simp at h
  | cons r t ih =>
      by_cases hr : r.id = i
      · have h1r : r.id = a1.id := by rw [hr, h1]
        rw [List.map_cons, if_pos h1r,
            List.find?_cons_of_pos _ (by simp [h1])]
      · have hne : r.id ≠ a1.id := by rw [h1]; exact hr
        rw [List.find?_cons_of_neg _ (by simp [hr])] at h
        rw [List.map_cons, if_neg hne,
            List.find?_cons_of_neg _ (by simp [hr])]
        exact ih h

/-! ### Claim theorems -/

/-- Claim C1: creating an Account from a valid payload (every field
supplied) and reading GET /accounts/(id) at the id the create returned
yields 200 and a payload whose name, email, address, phone_number and
date_joined equal those of the input payload. -/
theorem claim1_create_then_read (s : Store) (req : HttpRequest) (today : String)
    (p : AccountPayload) (n e ad ph dj : String)
    (hwf : s.WellFormed)
    (hct : req.contentType = some "application/json")
    (hb : req.body = some p)
    (hn : p.name = some n) (he : p.email = some e) (ha : p.address = some ad)
    (hp : p.phone_number = some ph) (hd : p.date_joined = some dj) :
    (create_accounts req today s).1.status = 201 ∧
    ∃ j : AccountJson,
      (create_accounts req today s).1.body = RespBody.json j ∧
      j.name = n ∧ j.email = e ∧ j.address = ad ∧
      j.phone_number = some ph ∧ j.date_joined = dj ∧
      read_account j.id (create_accounts req today s).2 =
        { status := 200, body := RespBody.json j, location := none } := by
  have hcc := check_ct_true req hct
  have hdes : deserialize p today =
      some { name := n, email := e, address := ad,
             phone_number := some ph, date_joined := dj } := by
    simp [deserialize, hn, he, ha, hp, hd]
  have hcr : create_accounts req today s =
      ({ status := 201,
         body := RespBody.json
           (mkAccount s.nextId
             { name := n, email := e, address := ad,
               phone_number := some ph, date_joined := dj }).serialize,
         location := some "/" },
       { nextId := s.nextId + 1,
         rows := s.rows ++
           [mkAccount s.nextId
             { name := n, email := e, address := ad,
               phone_number := some ph, date_joined := dj }] }) := by
    simp [create_accounts, hcc, hb, hdes, Store.createRow]
  refine ⟨by rw [hcr],
    (mkAccount s.nextId
      { name := n, email := e, address := ad,
        phone_number := some ph, date_joined := dj }).serialize,
    by rw [hcr], rfl, rfl, rfl, rfl, rfl, ?_⟩
  rw [hcr]
  refine read_account_found _ _ _ ?_
  exact find_id_append s.rows _ (fun r hr => Nat.ne_of_lt (hwf r hr))

/-- Claim C1 witness: creating from the sample payload on the empty
store and reading back the returned id gives 200 with the same five
field values. -/
theorem claim1_create_then_read_witness :
    (emptyStore.WellFormed ∧ jsonReq.contentType = some "application/json" ∧
     jsonReq.body = some samplePayload) ∧
    ((create_accounts jsonReq "2019-12-31" emptyStore).1.status = 201 ∧
     ∃ j : AccountJson,
       (create_accounts jsonReq "2019-12-31" emptyStore).1.body =
         RespBody.json j ∧
       j.name = "John" ∧ j.email = "john@example.com" ∧
       j.address = "1 Main St" ∧ j.phone_number = some "555-1234" ∧
       j.date_joined = "2020-01-01" ∧
       read_account j.id (create_accounts jsonReq "2019-12-31" emptyStore).2 =
         { status := 200, body := RespBody.json j, location := none }) :=
  ⟨⟨by decide, rfl, rfl⟩,
   claim1_create_then_read emptyStore jsonReq "2019-12-31" samplePayload
     "John" "john@example.com" "1 Main St" "555-1234" "2020-01-01"
     (by decide) rfl rfl rfl rfl rfl rfl rfl⟩

/-- Claim C3: a successful PUT /accounts/(i) overwrites all five mutable
fields of the stored row from the request body, and the id of the stored row
stays i whatever id value the body carries (the id field of the payload is
never read). -/
theorem claim3_update_overwrites (s : Store) (i : Nat) (req : HttpRequest)
    (today : String) (p : AccountPayload) (d : AccountData) (a0 : Account)
    (hct : req.contentType = some "application/json")
    (hb : req.body = some p)
    (hfind : s.find i = some a0)
    (hdes : deserialize p today = some d) :
    (update_account i req today s).1.status = 200 ∧
    (update_account i req today s).2.find i = some (mkAccount i d) := by
  have hcc := check_ct_true req hct
  have hid : a0.id = i := find_id_of_mem s i a0 hfind
  have ha1 : ({ a0 with name := d.name, email := d.email, address := d.address, phone_number := d.phone_number, date_joined := d.date_joined } : Account) = mkAccount i d := by
    cases a0
    simp only [mkAccount]
    simp only at hid
    simp [hid]
  constructor
  · simp [update_account, hcc, hfind, hb, hdes]
  · have hup : (update_account i req today s).2 =
        s.updateRow (mkAccount i d) := by
      simp [update_account, hcc, hfind, hb, hdes, ha1]
    rw [hup]
    unfold Store.updateRow Store.find
    exact find_map_update s.rows i a0 (mkAccount i d) hfind rfl

/-- Claim C3 witness: updating the sample account from a payload that
carries a different id leaves the stored id at 1 and replaces every
field from the body. -/
theorem claim3_update_overwrites_witness :
    (badIdReq.contentType = some "application/json" ∧
     badIdReq.body = some otherPayload ∧
     sampleStore.find 1 = some sampleAccount ∧
     deserialize otherPayload "2021-06-01" = some otherData) ∧
    ((update_account 1 badIdReq "2021-06-01" sampleStore).1.status = 200 ∧
     (update_account 1 badIdReq "2021-06-01" sampleStore).2.find 1 =
       some (mkAccount 1 otherData)) :=
  ⟨⟨rfl, rfl, by decide, by decide⟩,
   claim3_update_overwrites sampleStore 1 badIdReq "2021-06-01" otherPayload
     otherData sampleAccount rfl rfl (by decide) (by decide)⟩

/-- Claim C5: every POST /accounts and PUT /accounts/(id) request whose
Content-Type header is not exactly application/json gets 415, whatever
the body is (valid, invalid or unparseable) and with the store left
untouched, so the body is never parsed or validated; in particular
text/html with a valid JSON body gets 415, not 400. -/
theorem claim5_content_type_mismatch_415 (req : HttpRequest) (today : String)
    (s : Store) (i : Nat)
    (h : req.contentType ≠ some "application/json") :
    (create_accounts req today s).1.status = 415 ∧
    (create_accounts req today s).2 = s ∧
    (update_account i req today s).1.status = 415 ∧
    (update_account i req today s).2 = s := by
  have hc := check_ct_false_of_ne req h
  refine ⟨?_, ?_, ?_, ?_⟩ <;> simp [create_accounts, update_account, hc]

/-- Claim C5 witness: POST and PUT with Content-Type text/html and a
valid JSON body return 415 and leave the sample store unchanged. -/
theorem claim5_content_type_mismatch_415_witness :
    htmlReq.contentType ≠ some "application/json" ∧
    ((create_accounts htmlReq "2020-01-01" sampleStore).1.status = 415 ∧
     (create_accounts htmlReq "2020-01-01" sampleStore).2 = sampleStore ∧
     (update_account 1 htmlReq "2020-01-01" sampleStore).1.status = 415 ∧
     (update_account 1 htmlReq "2020-01-01" sampleStore).2 = sampleStore) :=
  ⟨by decide, claim5_content_type_mismatch_415 htmlReq "2020-01-01" sampleStore 1
    (by decide)⟩

/-- Claim C10: a POST /accounts or PUT /accounts/(id) request carrying
no Content-Type header at all also gets 415 (treated like a mismatched
header, not as a 400 validation error or a server error), with the
store untouched. -/
theorem claim10_missing_content_type_415 (req : HttpRequest) (today : String)
    (s : Store) (i : Nat)
    (h : req.contentType = none) :
    (create_accounts req today s).1.status = 415 ∧
    (create_accounts req today s).2 = s ∧
    (update_account i req today s).1.status = 415 ∧
    (update_account i req today s).2 = s := by
  have hc : check_content_type "application/json" req = false := by
    unfold check_content_type; rw [h]
  refine ⟨?_, ?_, ?_, ?_⟩ <;> simp [create_accounts, update_account, hc]

/-- Claim C10 witness: POST and PUT with no Content-Type header and a
valid JSON body return 415 on the sample store. -/
theorem claim10_missing_content_type_415_witness :
    noCtReq.contentType = none ∧
    ((create_accounts noCtReq "2020-01-01" sampleStore).1.status = 415 ∧
     (create_accounts noCtReq "2020-01-01" sampleStore).2 = sampleStore ∧
     (update_account 1 noCtReq "2020-01-01" sampleStore).1.status = 415 ∧
     (update_account 1 noCtReq "2020-01-01" sampleStore).2 = sampleStore) :=
  ⟨rfl, claim10_missing_content_type_415 noCtReq "2020-01-01" sampleStore 1 rfl⟩

/-- Claim C6: PUT /accounts/(i) for an id with no stored Account, with
Content-Type application/json, returns 404 no matter what the body is
(the existence check runs before the body is deserialized), and leaves
the store unchanged. -/
theorem claim6_update_missing_404 (i : Nat) (req : HttpRequest) (today : String)
    (s : Store)
    (hct : req.contentType = some "application/json")
    (hfind : s.find i = none) :
    (update_account i req today s).1.status = 404 ∧
    (update_account i req today s).2 = s := by
  have hc := check_ct_true req hct
  constructor <;> simp [update_account, hc, hfind]

/-- Claim C6 witness: PUT /accounts/0 on the empty store returns 404,
both for a valid body and for an invalid one. -/
theorem claim6_update_missing_404_witness :
    (jsonReq.contentType = some "application/json" ∧
     emptyStore.find 0 = none ∧
     (update_account 0 jsonReq "2020-01-01" emptyStore).1.status = 404 ∧
     (update_account 0 jsonReq "2020-01-01" emptyStore).2 = emptyStore) ∧
    ((update_account 0 badReq "2020-01-01" emptyStore).1.status = 404 ∧
     (update_account 0 badReq "2020-01-01" emptyStore).2 = emptyStore) :=
  ⟨⟨rfl, rfl,
    claim6_update_missing_404 0 jsonReq "2020-01-01" emptyStore rfl rfl⟩,
   claim6_update_missing_404 0 badReq "2020-01-01" emptyStore rfl rfl⟩

/-- Claim C7: DELETE /accounts/(i) for an existing Account returns 204,
and the body that goes out on the wire is empty (the handler passes the
serialized row, but the WSGI layer emits no body for 204). -/
theorem claim7_delete_204_empty (s : Store) (i : Nat) (a0 : Account)
    (h : s.find i = some a0) :
    (delete_account i s).1.status = 204 ∧
    wireBody (delete_account i s).1 = RespBody.empty := by
  constructor <;> simp [delete_account, h, wireBody]

/-- Claim C7 witness: deleting the sample account returns 204 with an
empty wire body. -/
theorem claim7_delete_204_empty_witness :
    sampleStore.find 1 = some sampleAccount ∧
    ((delete_account 1 sampleStore).1.status = 204 ∧
     wireBody (delete_account 1 sampleStore).1 = RespBody.empty) :=
  ⟨by decide, claim7_delete_204_empty sampleStore 1 sampleAccount (by decide)⟩

/-- Claim C8 counterexample evaluation: on a successful create the code
returns 201 with the full serialized Account (assigned id 1) in the
body, but the Location header is the literal "/": a second create gets
a different id (2) yet the very same Location value, so the header does
not identify the newly created resource.  routes.py itself marks the
line a stub: the url_for call that would build the real location is
commented out "until get_accounts has been implemented". -/
theorem claim8_location_is_stub :
    (create_accounts jsonReq "2020-01-01" emptyStore).1.status = 201 ∧
    (create_accounts jsonReq "2020-01-01" emptyStore).1.body =
      RespBody.json sampleAccount.serialize ∧
    sampleAccount.serialize.id = 1 ∧
    (create_accounts jsonReq "2020-01-01" emptyStore).1.location = some "/" ∧
    (create_accounts jsonReq "2020-01-01"
      (create_accounts jsonReq "2020-01-01" emptyStore).2).1.body =
      RespBody.json { sampleAccount.serialize with id := 2 } ∧
    (create_accounts jsonReq "2020-01-01"
      (create_accounts jsonReq "2020-01-01" emptyStore).2).1.location =
      some "/" := by
  decide

/-- Claim C9: whenever PUT /accounts/(i) answers 400 (its body failed
validation), the store — in particular the stored Account with id i —
is left exactly as it was. -/
theorem claim9_failed_update_unchanged (i : Nat) (req : HttpRequest)
    (today : String) (s : Store)
    (h : (update_account i req today s).1.status = 400) :
    (update_account i req today s).2 = s := by
  cases hcc : check_content_type "application/json" req with
  | false => simp [update_account, hcc]
  | true =>
      cases hf : s.find i with
      | none => simp [update_account, hcc, hf]
      | some a0 =>
          cases hb : req.body with
          | none => simp [update_account, hcc, hf, hb]
          | some p =>
              cases hd : deserialize p today with
              | none => simp [update_account, hcc, hf, hb, hd]
              | some d =>
                  exfalso
                  simp [update_account, hcc, hf, hb, hd] at h

/-- An update never changes the set of ids in the store: every row of
the result carries the id of some row of the input store. -/
theorem update_preserves_ids (i : Nat) (req : HttpRequest) (today : String)
    (s : Store) :
    ∀ r ∈ (update_account i req today s).2.rows, ∃ r0 ∈ s.rows, r.id = r0.id := by
  cases hcc : check_content_type "application/json" req with
  | false =>
      simp only [update_account, hcc]
      intro r hr; exact ⟨r, hr, rfl⟩
  | true =>
      cases hf : s.find i with
      | none =>
          simp only [update_account, hcc, hf]
          intro r hr; exact ⟨r, hr, rfl⟩
      | some a0 =>
          cases hb : req.body with
          | none =>
              simp only [update_account, hcc, hf, hb]
              intro r hr; exact ⟨r, hr, rfl⟩
          | some p =>
              cases hd : deserialize p today with
              | none =>
                  simp only [update_account, hcc, hf, hb, hd]
                  intro r hr; exact ⟨r, hr, rfl⟩
              | some d =>
                  simp only [update_account, hcc, hf, hb, hd, Store.updateRow]
                  intro r hr
                  obtain ⟨r0, hr0, hfeq⟩ := List.mem_map.1 hr
                  by_cases hcase : r0.id = a0.id
                  · rw [if_pos hcase] at hfeq
                    exact ⟨a0, mem_of_find s i a0 hf, by rw [← hfeq]⟩
                  · rw [if_neg hcase] at hfeq
                    exact ⟨r0, hr0, by rw [← hfeq]⟩

/-- A delete only removes rows: every remaining row was already stored. -/
theorem delete_rows_subset (i : Nat) (s : Store) :
    ∀ r ∈ (delete_account i s).2.rows, r ∈ s.rows := by
  cases hf : s.find i with
  | none => simp only [delete_account, hf]; intro r hr; exact hr
  | some a0 =>
      simp only [delete_account, hf, Store.deleteRow]
      intro r hr
      exact List.mem_of_mem_filter hr

/-- A non-create operation never puts a row with a fresh id into the
store: an id absent before stays absent. -/
theorem absent_applyOp (s : Store) (o : Op) (i : Nat)
    (ho : o.isCreate = false)
    (h : ∀ r ∈ s.rows, r.id ≠ i) :
    ∀ r ∈ (applyOp s o).rows, r.id ≠ i := by
  cases o with
  | createReq req today => simp [Op.isCreate] at ho
  | updateReq j req today =>
      intro r hr
      obtain ⟨r0, hr0, hid⟩ := update_preserves_ids j req today s r hr
      rw [hid]; exact h r0 hr0
  | deleteReq j =>
      intro r hr
      exact h r (delete_rows_subset j s r hr)

/-- An id absent from the store stays absent across any sequence of
non-create operations. -/
theorem absent_foldl (i : Nat) (ops : List Op) :
    ∀ s : Store, (∀ o ∈ ops, o.isCreate = false) →
      (∀ r ∈ s.rows, r.id ≠ i) →
      ∀ r ∈ (ops.foldl applyOp s).rows, r.id ≠ i := by
  induction ops with
  | nil => intro s _ h; simpa using h
  | cons o t ih =>
      intro s hops h
      rw [List.foldl_cons]
      exact ih (applyOp s o)
        (fun x hx => hops x (List.mem_cons_of_mem _ hx))
        (absent_applyOp s o i (hops o (List.mem_cons_self o t)) h)

/-- Reading an id no stored row carries returns 404. -/
theorem read_account_absent (i : Nat) (s : Store)
    (h : ∀ r ∈ s.rows, r.id ≠ i) :
    (read_account i s).status = 404 := by
  have hf : s.find i = none := by
    unfold Store.find
    exact List.find?_eq_none.2 (fun x hx => by simpa using h x hx)
  simp [read_account, hf]

/-- A successful delete removes every row carrying the deleted id. -/
theorem delete_removes_id (i : Nat) (s : Store) (a0 : Account)
    (h : s.find i = some a0) :
    ∀ r ∈ (delete_account i s).2.rows, r.id ≠ i := by
  simp only [delete_account, h, Store.deleteRow]
  intro r hr
  simpa using (List.mem_filter.1 hr).2

/-- Claim C2: after a successful DELETE /accounts/(i) (which answers
204), every later GET /accounts/(i) answers 404, whatever non-create
operations are served in between. -/
theorem claim2_delete_then_read_404 (s : Store) (i : Nat) (a0 : Account)
    (ops : List Op)
    (hdel : s.find i = some a0)
    (hops : ∀ o ∈ ops, o.isCreate = false) :
    (delete_account i s).1.status = 204 ∧
    (read_account i (ops.foldl applyOp (delete_account i s).2)).status = 404 := by
  constructor
  · simp [delete_account, hdel]
  · exact read_account_absent i _
      (absent_foldl i ops (delete_account i s).2 hops
        (delete_removes_id i s a0 hdel))

/-- Claim C2 witness: deleting the sample account answers 204, and after
an intervening update and a redundant delete the read still answers
404. -/
theorem claim2_delete_then_read_404_witness :
    (sampleStore.find 1 = some sampleAccount ∧
     ∀ o ∈ [Op.updateReq 1 jsonReq "2020-01-01", Op.deleteReq 1],
       o.isCreate = false) ∧
    ((delete_account 1 sampleStore).1.status = 204 ∧
     (read_account 1
       ([Op.updateReq 1 jsonReq "2020-01-01", Op.deleteReq 1].foldl applyOp
         (delete_account 1 sampleStore).2)).status = 404) :=
  ⟨⟨by decide, by decide⟩,
   claim2_delete_then_read_404 sampleStore 1 sampleAccount
     [Op.updateReq 1 jsonReq "2020-01-01", Op.deleteReq 1]
     (by decide) (by decide)⟩

/-- Claim C9 witness: a PUT on the sample account whose body is missing
required fields answers 400 and leaves the sample store unchanged. -/
theorem claim9_failed_update_unchanged_witness :
    (update_account 1 badReq "2020-01-01" sampleStore).1.status = 400 ∧
    (update_account 1 badReq "2020-01-01" sampleStore).2 = sampleStore :=
  ⟨by decide,
   claim9_failed_update_unchanged 1 badReq "2020-01-01" sampleStore (by decide)⟩

/-- Serving one well-formed create per payload appends exactly the rows
`mkRows` describes, starting at the current id counter of the store. -/
theorem createAll_rows (today : String) (ps : List AccountPayload) :
    ∀ s : Store,
      (createAll today ps s).rows = s.rows ++ mkRows today s.nextId ps := by
  induction ps with
  | nil => intro s; simp [createAll, mkRows]
  | cons p t ih =>
      intro s
      have hcc := check_ct_true
        { contentType := some "application/json", body := some p } rfl
      have hstep : createAll today (p :: t) s =
          createAll today t
            ((create_accounts
              { contentType := some "application/json", body := some p }
              today s).2) := by
        simp [createAll, List.foldl_cons]
      rw [hstep]
      cases hd : deserialize p today with
      | some d =>
          have hcr : (create_accounts
              { contentType := some "application/json", body := some p }
              today s).2 =
              { nextId := s.nextId + 1,
                rows := s.rows ++ [mkAccount s.nextId d] } := by
            simp [create_accounts, hcc, hd, Store.createRow]
          rw [hcr, ih]
          simp [mkRows, hd]
      | none =>
          have hcr : (create_accounts
              { contentType := some "application/json", body := some p }
              today s).2 = s := by
            simp [create_accounts, hcc, hd]
          rw [hcr, ih]
          simp [mkRows, hd]

/-- When every payload deserializes, the creates add one row each. -/
theorem mkRows_length (today : String) :
    ∀ (ps : List AccountPayload) (nid : Nat),
      (∀ p ∈ ps, (deserialize p today).isSome) →
      (mkRows today nid ps).length = ps.length := by
  intro ps
  induction ps with
  | nil => intro nid _; rfl
  | cons p t ih =>
      intro nid hv
      obtain ⟨d, hd⟩ := Option.isSome_iff_exists.1
        (hv p (List.mem_cons_self p t))
      simp [mkRows, hd,
        ih (nid + 1) (fun x hx => hv x (List.mem_cons_of_mem _ hx))]

/-- Every row the creates add is the account built from the payload at
some position k, with the id the counter assigned at step k. -/
theorem mkRows_mem (today : String) :
    ∀ (ps : List AccountPayload) (nid : Nat),
      (∀ p ∈ ps, (deserialize p today).isSome) →
      ∀ a ∈ mkRows today nid ps,
        ∃ k : Fin ps.length, ∃ d : AccountData,
          deserialize (ps.get k) today = some d ∧
          a = mkAccount (nid + k.1) d := by
  intro ps
  induction ps with
  | nil => intro nid _ a ha; simp [mkRows] at ha
  | cons p t ih =>
      intro nid hv a ha
      cases hd : deserialize p today with
      | none =>
          have := hv p (List.mem_cons_self p t)
          rw [hd] at this
          simp at this
      | some d0 =>
          simp only [mkRows, hd] at ha
          rcases List.mem_cons.1 ha with hhead | htail
          · refine ⟨⟨0, by simp⟩, d0, ?_, ?_⟩
            · simpa [List.get] using hd
            · simpa using hhead
          · obtain ⟨k, d, hk, hka⟩ :=
              ih (nid + 1) (fun x hx => hv x (List.mem_cons_of_mem _ hx)) a htail
            refine ⟨⟨k.1 + 1, Nat.succ_lt_succ k.2⟩, d, ?_, ?_⟩
            · simpa [List.get] using hk
            · rw [hka]
              have : nid + 1 + k.1 = nid + (k.1 + 1) := by omega
              rw [this]

/-- Claim C4: on an empty store GET /accounts returns the empty array;
after N successful creates it returns 200 with an array of exactly N
entries, each entry the serialization of the account created from the
payload at some position k (with the id assigned at step k). -/
theorem claim4_list_after_creates (today : String) (ps : List AccountPayload)
    (hv : ∀ p ∈ ps, (deserialize p today).isSome) :
    list_accounts emptyStore =
      { status := 200, body := RespBody.jsonList [], location := none } ∧
    (list_accounts (createAll today ps emptyStore)).status = 200 ∧
    ∃ l : List AccountJson,
      (list_accounts (createAll today ps emptyStore)).body =
        RespBody.jsonList l ∧
      l.length = ps.length ∧
      ∀ j ∈ l, ∃ k : Fin ps.length, ∃ d : AccountData,
        deserialize (ps.get k) today = some d ∧
        j = (mkAccount (1 + k.1) d).serialize := by
  have hrows : (createAll today ps emptyStore).rows = mkRows today 1 ps := by
    rw [createAll_rows today ps emptyStore]
    rfl
  refine ⟨rfl, rfl, (mkRows today 1 ps).map Account.serialize, ?_, ?_, ?_⟩
  · simp [list_accounts, hrows]
  · rw [List.length_map]
    exact mkRows_length today ps 1 hv
  · intro j hj
    obtain ⟨a, ha, hja⟩ := List.mem_map.1 hj
    obtain ⟨k, d, hk, hka⟩ := mkRows_mem today ps 1 hv a ha
    exact ⟨k, d, hk, by rw [← hja, hka]⟩

/-- Claim C4 witness: creating two accounts from the sample payloads on
the empty store and listing gives 200 with exactly two entries, each
matching one created account. -/
theorem claim4_list_after_creates_witness :
    (∀ p ∈ [samplePayload, otherPayload],
      (deserialize p "2020-01-01").isSome) ∧
    (list_accounts emptyStore =
      { status := 200, body := RespBody.jsonList [], location := none } ∧
    (list_accounts
      (createAll "2020-01-01" [samplePayload, otherPayload]
        emptyStore)).status = 200 ∧
    ∃ l : List AccountJson,
      (list_accounts
        (createAll "2020-01-01" [samplePayload, otherPayload]
          emptyStore)).body = RespBody.jsonList l ∧
      l.length = [samplePayload, otherPayload].length ∧
      ∀ j ∈ l,
        ∃ k : Fin [samplePayload, otherPayload].length, ∃ d : AccountData,
          deserialize ([samplePayload, otherPayload].get k) "2020-01-01" =
            some d ∧
          j = (mkAccount (1 + k.1) d).serialize) :=
  ⟨by decide,
   claim4_list_after_creates "2020-01-01" [samplePayload, otherPayload]
     (by decide)⟩

end AccountService
